import Mathlib

/-!
A shallow embedding of the `try-rwlock` crate (`src/lib.rs`): a non-blocking
readers-writer lock built on a single `AtomicUsize` counter.

The counter encoding (from the `TryRwLock` doc comment on the struct):
* `0` — the lock is free;
* `1 ≤ n < usize::MAX` — `n` readers hold the lock;
* `usize::MAX` — "there are usize::MAX readers or it is being written".

Atomic operations are embedded as pure functions on a `Lock` record; machine
arithmetic on the `usize` counter is `Nat` with an explicit `% 2^64` wherever
the atomic op in the source could wrap (`fetch_sub`) or store an arbitrary value.
Since the embedding is of sequential (interleaved-atomic-step) executions, a
`compare_and_swap` performed against a value just loaded from the same lock
always succeeds, so the retry loop in `try_read` runs its body exactly once;
the embedding of `try_read` is that single iteration.

On top of the per-operation functions, a small transition system (`SysState`,
`step`, `run`) tracks how many read and write guards are outstanding, so that
reachability and invariant claims about guard/counter interaction can be
stated and proved.
-/

namespace TryRwLockModel

/-- The number of values of `usize` (the crate targets the usual 64-bit platforms;
only the facts `MAX = USIZE - 1` and `2 ≤ USIZE` matter to any proof below). -/
def USIZE : Nat := 2 ^ 64

/-- The value `usize::MAX`, doubling as the writer sentinel value of the counter. -/
def MAX : Nat := USIZE - 1

/-- The `TryRwLock<T>` struct: the `readers` atomic counter and the wrapped
`data` cell. `readers` is a `usize`, kept as a `Nat` that every operation
keeps below `USIZE`. -/
structure Lock (T : Type) where
  readers : Nat
  data : T
  deriving DecidableEq, Repr

variable {T : Type}

/-- Model of `AtomicUsize::compare_and_swap(current, new)`: stores `new` iff the stored
value equals `current`, and returns the previously stored value either way. -/
def compare_and_swap (l : Lock T) (current new : Nat) : Nat × Lock T :=
  if l.readers = current then (current, { l with readers := new % USIZE })
  else (l.readers, l)

/-- Model of `TryRwLock::new(data)`: a free lock wrapping `data`. -/
def new (data : T) : Lock T :=
  { readers := 0, data := data }

/-- Model of `TryRwLock::try_read`. The source loads `readers`, returns `None` when the
load gives `usize::MAX`, and otherwise runs a compare-and-swap loop that
increments by one; sequentially the first compare-and-swap (against the value
just loaded) succeeds, so the loop body runs once. The first component is the
result (`some ()` standing for `Some(ReadGuard)`), the second the lock after
the call. -/
def try_read (l : Lock T) : Option Unit × Lock T :=
  let readers := l.readers
  if readers = MAX then (none, l)
  else
    let casOut := compare_and_swap l readers (readers + 1)
    (some (), casOut.2)

/-- Model of `TryRwLock::try_write`: a single compare-and-swap from `0` to `usize::MAX`;
succeeds iff the previous value was `0`. -/
def try_write (l : Lock T) : Option Unit × Lock T :=
  let casOut := compare_and_swap l 0 MAX
  if casOut.1 = 0 then (some (), casOut.2) else (none, casOut.2)

/-- Model of `TryRwLock::into_inner`: consume the lock, returning the wrapped data. -/
def into_inner (l : Lock T) : T :=
  l.data

/-- Model of `TryRwLock::get_mut`, read side: with exclusive ownership, the data is
reached directly, bypassing the counter. -/
def get_mut (l : Lock T) : T :=
  l.data

/-- Model of `ReadGuard::try_upgrade`: a single compare-and-swap from `1` to
`usize::MAX`; succeeds iff the previous value was `1` (`Ok(WriteGuard)`,
the read guard forgotten), otherwise `Err(guard)` with the guard returned
unconsumed. -/
def try_upgrade (l : Lock T) : Option Unit × Lock T :=
  let casOut := compare_and_swap l 1 MAX
  if casOut.1 = 1 then (some (), casOut.2) else (none, casOut.2)

/-- Model of `WriteGuard::downgrade`: forget the write guard (its `Drop` does not run)
and store `1` into the counter, yielding a read guard. -/
def downgrade (l : Lock T) : Lock T :=
  { l with readers := 1 }

/-- Model of `Drop for ReadGuard`: `readers.fetch_sub(1)`, which wraps modulo `2^64`. -/
def drop_read (l : Lock T) : Lock T :=
  { l with readers := (l.readers + USIZE - 1) % USIZE }

/-- Model of `Drop for WriteGuard`: `readers.store(0)`. -/
def drop_write (l : Lock T) : Lock T :=
  { l with readers := 0 }

/-- Dereferencing a guard (`Deref` of either guard type): read the wrapped
data. -/
def read_data (l : Lock T) : T :=
  l.data

/-- Writing through a `WriteGuard` (`DerefMut`): replace the wrapped data. -/
def write_data (l : Lock T) (v : T) : Lock T :=
  { l with data := v }

/-- Model of `Debug for TryRwLock`: `try_read` the lock; on success render the data read
through the temporary guard, else render the `<locked>` placeholder. (The
temporary guard is dropped before `fmt` returns, leaving the counter as it
was.) `rp` stands for the `Debug` rendering of `T`. -/
def lock_debug_fmt (rp : T → String) (l : Lock T) : String :=
  match try_read l with
  | (some _, l') => "TryRwLock \x7b data: " ++ rp (read_data l') ++ " \x7d"
  | (none, _) => "TryRwLock \x7b data: <locked> \x7d"

/-- Model of `Debug for ReadGuard`: render the data reached through the guard. -/
def read_guard_debug_fmt (rp : T → String) (l : Lock T) : String :=
  "TryRwLockReadGuard \x7b data: " ++ rp (read_data l) ++ " \x7d"

/-- Model of `Debug for WriteGuard`: render the data reached through the guard. -/
def write_guard_debug_fmt (rp : T → String) (l : Lock T) : String :=
  "TryRwLockWriteGuard \x7b data: " ++ rp (read_data l) ++ " \x7d"

/-- Model of `Display` for either guard type: render the data directly. -/
def guard_display_fmt (rp : T → String) (l : Lock T) : String :=
  rp (read_data l)

/-! ## The guard-tracking transition system -/

/-- A system state: the lock together with the number of outstanding
`ReadGuard`s and `WriteGuard`s. -/
structure SysState (T : Type) where
  lock : Lock T
  rGuards : Nat
  wGuards : Nat
  deriving DecidableEq, Repr

/-- The operations a client can interleave: acquisition attempts, the two
guard conversions, guard drops, and a write through a held write guard. -/
inductive Op (T : Type) where
  | tryRead
  | tryWrite
  | tryUpgrade
  | downgrade
  | dropRead
  | dropWrite
  | writeData (v : T)
  deriving DecidableEq, Repr

/-- One atomic client step. Guard-consuming operations are no-ops when no
guard of the required kind is outstanding (the client has nothing to call
them on). A successful `tryUpgrade` consumes a read guard and produces a
write guard without running the drop of the read guard (`mem::forget`); a
`downgrade` consumes the write guard without running its drop. -/
def step (s : SysState T) : Op T → SysState T
  | .tryRead =>
    match try_read s.lock with
    | (some _, l') => ⟨l', s.rGuards + 1, s.wGuards⟩
    | (none, l') => ⟨l', s.rGuards, s.wGuards⟩
  | .tryWrite =>
    match try_write s.lock with
    | (some _, l') => ⟨l', s.rGuards, s.wGuards + 1⟩
    | (none, l') => ⟨l', s.rGuards, s.wGuards⟩
  | .tryUpgrade =>
    if s.rGuards = 0 then s
    else
      match try_upgrade s.lock with
      | (some _, l') => ⟨l', s.rGuards - 1, s.wGuards + 1⟩
      | (none, l') => ⟨l', s.rGuards, s.wGuards⟩
  | .downgrade =>
    if s.wGuards = 0 then s
    else ⟨downgrade s.lock, s.rGuards + 1, s.wGuards - 1⟩
  | .dropRead =>
    if s.rGuards = 0 then s
    else ⟨drop_read s.lock, s.rGuards - 1, s.wGuards⟩
  | .dropWrite =>
    if s.wGuards = 0 then s
    else ⟨drop_write s.lock, s.rGuards, s.wGuards - 1⟩
  | .writeData v =>
    if s.wGuards = 0 then s
    else ⟨write_data s.lock v, s.rGuards, s.wGuards⟩

/-- The initial system state: a freshly created lock, no guards. -/
def init (v : T) : SysState T :=
  ⟨new v, 0, 0⟩

/-- Run a list of operations from a state. -/
def run (s : SysState T) : List (Op T) → SysState T
  | [] => s
  | op :: ops => run (step s op) ops

/-- A state is reachable from the lock wrapping `v` when some operation
sequence leads to it. -/
def Reachable (v : T) (s : SysState T) : Prop :=
  ∃ ops : List (Op T), run (init v) ops = s

/-! ## Closed forms of the operations -/

theorem MAX_lt_USIZE : MAX < USIZE := by
  norm_num [MAX, USIZE]

theorem one_lt_MAX : 1 < MAX := by
  norm_num [MAX, USIZE]

theorem MAX_mod_USIZE : MAX % USIZE = MAX :=
  Nat.mod_eq_of_lt MAX_lt_USIZE

/-- Closed form of `try_read`: fail exactly on the sentinel, otherwise
increment by one (no wraparound occurs for a representable counter). -/
theorem try_read_eq (l : Lock T) (h : l.readers < USIZE) :
    try_read l =
      if l.readers = MAX then (none, l)
      else (some (), { l with readers := l.readers + 1 }) := by
  by_cases hm : l.readers = MAX
  · simp [try_read, hm]
  · have hlt : l.readers + 1 < USIZE := by
      have : l.readers ≤ USIZE - 1 := by omega
      have : l.readers < USIZE - 1 := by
        simp only [MAX] at hm
        omega
      omega
    simp [try_read, compare_and_swap, hm, Nat.mod_eq_of_lt hlt]

/-- Closed form of `try_write`: succeed exactly from `0`, setting the
sentinel; on failure the lock is untouched. -/
theorem try_write_eq (l : Lock T) :
    try_write l =
      if l.readers = 0 then (some (), { l with readers := MAX })
      else (none, l) := by
  by_cases h0 : l.readers = 0
  · simp [try_write, compare_and_swap, h0, MAX_mod_USIZE]
  · simp [try_write, compare_and_swap, h0]

/-- Closed form of `try_upgrade`: succeed exactly from `1`, setting the
sentinel; on failure the lock is untouched. -/
theorem try_upgrade_eq (l : Lock T) :
    try_upgrade l =
      if l.readers = 1 then (some (), { l with readers := MAX })
      else (none, l) := by
  by_cases h1 : l.readers = 1
  · simp [try_upgrade, compare_and_swap, h1, MAX_mod_USIZE]
  · simp [try_upgrade, compare_and_swap, h1]

/-- The op `fetch_sub(1)` really subtracts one as long as the counter is a
representable nonzero value. -/
theorem drop_read_eq (l : Lock T) (h1 : 1 ≤ l.readers) (h2 : l.readers < USIZE) :
    drop_read l = { l with readers := l.readers - 1 } := by
  have hge : USIZE ≤ l.readers + USIZE - 1 := by omega
  have : l.readers + USIZE - 1 = (l.readers - 1) + USIZE := by omega
  simp only [drop_read, this, Nat.add_mod_right, Nat.mod_eq_of_lt (by omega : l.readers - 1 < USIZE)]

/-! ## The reachable-state invariant -/

/-- The inductive invariant of the transition system: either no write guard
is outstanding and the counter equals the number of outstanding read guards
(at most `MAX` of them), or exactly one write guard and no read guard is
outstanding and the counter is the sentinel. -/
def Inv (s : SysState T) : Prop :=
  (s.wGuards = 0 ∧ s.lock.readers = s.rGuards ∧ s.rGuards ≤ MAX) ∨
  (s.wGuards = 1 ∧ s.rGuards = 0 ∧ s.lock.readers = MAX)

theorem Inv_readers_le {s : SysState T} (h : Inv s) : s.lock.readers ≤ MAX := by
  rcases h with ⟨_, h2, h3⟩ | ⟨_, _, h3⟩ <;> omega

theorem Inv_init (v : T) : Inv (init v) := by
  left
  simp [init, new]

theorem Inv.left_mk {l : Lock T} {r w : Nat} (h1 : w = 0) (h2 : l.readers = r)
    (h3 : r ≤ MAX) : Inv (⟨l, r, w⟩ : SysState T) :=
  Or.inl ⟨h1, h2, h3⟩

theorem Inv.right_mk {l : Lock T} {r w : Nat} (h1 : w = 1) (h2 : r = 0)
    (h3 : l.readers = MAX) : Inv (⟨l, r, w⟩ : SysState T) :=
  Or.inr ⟨h1, h2, h3⟩

theorem Inv_step {s : SysState T} (h : Inv s) (op : Op T) : Inv (step s op) := by
  have hle : s.lock.readers ≤ MAX := Inv_readers_le h
  have hmax : MAX < USIZE := MAX_lt_USIZE
  have hone : 1 < MAX := one_lt_MAX
  have hlt : s.lock.readers < USIZE := by omega
  cases op with
  | tryRead =>
    rw [step, try_read_eq s.lock hlt]
    by_cases hm : s.lock.readers = MAX
    · simpa [hm] using h
    · rcases h with ⟨h1, h2, h3⟩ | ⟨h1, h2, h3⟩
      · simp only [hm, ite_false]
        exact Inv.left_mk h1 (by simp [h2]) (by omega)
      · exact absurd h3 hm
  | tryWrite =>
    rw [step, try_write_eq s.lock]
    by_cases h0 : s.lock.readers = 0
    · rcases h with ⟨h1, h2, h3⟩ | ⟨h1, h2, h3⟩
      · simp only [h0, ite_true]
        exact Inv.right_mk (by omega) (by omega) rfl
      · omega
    · simp only [h0, ite_false]
      rcases h with ⟨h1, h2, h3⟩ | ⟨h1, h2, h3⟩
      · exact Inv.left_mk h1 h2 h3
      · exact Inv.right_mk h1 h2 h3
  | tryUpgrade =>
    rw [step]
    by_cases hg : s.rGuards = 0
    · simpa [hg] using h
    · simp only [hg, ite_false]
      rw [try_upgrade_eq s.lock]
      rcases h with ⟨h1, h2, h3⟩ | ⟨h1, h2, h3⟩
      · by_cases h1' : s.lock.readers = 1
        · simp only [h1', ite_true]
          exact Inv.right_mk (by omega) (by omega) rfl
        · simp only [h1', ite_false]
          exact Inv.left_mk h1 h2 h3
      · exact absurd h2 hg
  | downgrade =>
    rw [step]
    by_cases hg : s.wGuards = 0
    · simpa [hg] using h
    · simp only [hg, ite_false]
      rcases h with ⟨h1, h2, h3⟩ | ⟨h1, h2, h3⟩
      · exact absurd h1 hg
      · exact Inv.left_mk (by omega) (by simp [downgrade, h2]) (by omega)
  | dropRead =>
    rw [step]
    by_cases hg : s.rGuards = 0
    · simpa [hg] using h
    · simp only [hg, ite_false]
      rcases h with ⟨h1, h2, h3⟩ | ⟨h1, h2, h3⟩
      · rw [drop_read_eq s.lock (by omega) hlt]
        exact Inv.left_mk h1 (by simp [h2]) (by omega)
      · exact absurd h2 hg
  | dropWrite =>
    rw [step]
    by_cases hg : s.wGuards = 0
    · simpa [hg] using h
    · simp only [hg, ite_false]
      rcases h with ⟨h1, h2, h3⟩ | ⟨h1, h2, h3⟩
      · exact absurd h1 hg
      · exact Inv.left_mk (by omega) (by simp [drop_write, h2]) (by omega)
  | writeData v =>
    rw [step]
    by_cases hg : s.wGuards = 0
    · simpa [hg] using h
    · simp only [hg, ite_false]
      rcases h with ⟨h1, h2, h3⟩ | ⟨h1, h2, h3⟩
      · exact absurd h1 hg
      · exact Inv.right_mk h1 h2 (by simp [write_data, h3])

theorem Inv_run {s : SysState T} (h : Inv s) (ops : List (Op T)) : Inv (run s ops) := by
  induction ops generalizing s with
  | nil => exact h
  | cons op ops ih => exact ih (Inv_step h op)

/-- Every reachable state satisfies the invariant. -/
theorem Reachable.inv {v : T} {s : SysState T} (h : Reachable v s) : Inv s := by
  obtain ⟨ops, rfl⟩ := h
  exact Inv_run (Inv_init v) ops

/-- Running `n` `tryRead` operations from a guard-consistent reader state adds
`n` readers and `n` read guards, as long as the count stays within `MAX`. -/
theorem run_replicate_tryRead (v : T) (k n : Nat) (h : k + n ≤ MAX) :
    run (⟨⟨k, v⟩, k, 0⟩ : SysState T) (List.replicate n Op.tryRead) =
      ⟨⟨k + n, v⟩, k + n, 0⟩ := by
  induction n generalizing k with
  | zero => simp [run]
  | succ n ih =>
    rw [List.replicate_succ, run]
    have hk : k ≠ MAX := by omega
    have hklt : k < USIZE := by
      have := MAX_lt_USIZE
      omega
    have hstep : step (⟨⟨k, v⟩, k, 0⟩ : SysState T) Op.tryRead =
        ⟨⟨k + 1, v⟩, k + 1, 0⟩ := by
      rw [step, try_read_eq _ hklt]
      simp [hk]
    rw [hstep]
    have heq : k + (n + 1) = (k + 1) + n := by omega
    rw [heq]
    exact ih (k + 1) (by omega)

/-! ## The claims -/

/-- Claim C2: `try_write` succeeds if and only if the readers counter is `0`,
via the single compare-and-swap from `0` to `usize::MAX` with no retry loop;
on success the counter becomes `usize::MAX` and a write guard is returned,
and on observing any non-zero value it immediately returns `None` with the
lock untouched. -/
theorem C2_try_write_iff_counter_zero (l : Lock T) :
    ((try_write l).1.isSome ↔ l.readers = 0) ∧
    (l.readers = 0 → try_write l = (some (), { l with readers := MAX })) ∧
    (l.readers ≠ 0 → try_write l = (none, l)) := by
  rw [try_write_eq]
  by_cases h0 : l.readers = 0 <;> simp [h0]

/-- Witness for C2 at the free lock wrapping `37`. -/
theorem C2_try_write_iff_counter_zero_witness :
    ((try_write (⟨0, 37⟩ : Lock Nat)).1.isSome ↔ (⟨0, 37⟩ : Lock Nat).readers = 0) ∧
    ((⟨0, 37⟩ : Lock Nat).readers = 0 →
      try_write (⟨0, 37⟩ : Lock Nat) = (some (), ⟨MAX, 37⟩)) ∧
    ((⟨0, 37⟩ : Lock Nat).readers ≠ 0 →
      try_write (⟨0, 37⟩ : Lock Nat) = (none, ⟨0, 37⟩)) :=
  C2_try_write_iff_counter_zero ⟨0, 37⟩

/-- Claim C3: `try_read` returns `None` if and only if the counter value it
observes is `usize::MAX`; for every other observed counter value it increments
the counter by exactly one and returns a read guard. -/
theorem C3_try_read_iff_not_sentinel (l : Lock T) (h : l.readers < USIZE) :
    ((try_read l).1 = none ↔ l.readers = MAX) ∧
    (l.readers ≠ MAX →
      try_read l = (some (), { l with readers := l.readers + 1 })) := by
  rw [try_read_eq l h]
  by_cases hm : l.readers = MAX <;> simp [hm]

/-- Witness for C3 at a lock with five readers. -/
theorem C3_try_read_iff_not_sentinel_witness :
    (5 : Nat) < USIZE ∧
    (((try_read (⟨5, 37⟩ : Lock Nat)).1 = none ↔ (⟨5, 37⟩ : Lock Nat).readers = MAX) ∧
      ((⟨5, 37⟩ : Lock Nat).readers ≠ MAX →
        try_read (⟨5, 37⟩ : Lock Nat) = (some (), ⟨6, 37⟩))) :=
  ⟨by norm_num [USIZE], C3_try_read_iff_not_sentinel ⟨5, 37⟩ (by norm_num [USIZE])⟩

/-- Claim C4: `try_upgrade` succeeds if and only if the counter is exactly `1`
at the compare-and-swap, setting it to `usize::MAX`; with any other counter
value it fails, the lock (counter and data) is unchanged, the read guard is
returned unconsumed and still reads the data, and a failed upgrade attempt
leaves the guard count intact. -/
theorem C4_try_upgrade_iff_single_reader (l : Lock T) (s : SysState T) :
    ((try_upgrade l).1.isSome ↔ l.readers = 1) ∧
    (l.readers = 1 → try_upgrade l = (some (), { l with readers := MAX })) ∧
    (l.readers ≠ 1 →
      try_upgrade l = (none, l) ∧ read_data (try_upgrade l).2 = l.data) ∧
    (0 < s.rGuards → s.lock.readers ≠ 1 → step s Op.tryUpgrade = s) := by
  rw [try_upgrade_eq]
  refine ⟨?_, ?_, ?_, ?_⟩
  · by_cases h1 : l.readers = 1 <;> simp [h1]
  · intro h1
    simp [h1]
  · intro h1
    simp [h1, read_data]
  · intro hg h1
    rw [step]
    have : ¬s.rGuards = 0 := by omega
    simp only [this, ite_false, try_upgrade_eq, h1, if_false]

/-- Witness for C4 at a lock with one reader and a matching system state. -/
theorem C4_try_upgrade_iff_single_reader_witness :
    ((try_upgrade (⟨1, 37⟩ : Lock Nat)).1.isSome ↔ (⟨1, 37⟩ : Lock Nat).readers = 1) ∧
    ((⟨1, 37⟩ : Lock Nat).readers = 1 →
      try_upgrade (⟨1, 37⟩ : Lock Nat) = (some (), ⟨MAX, 37⟩)) ∧
    ((⟨1, 37⟩ : Lock Nat).readers ≠ 1 →
      try_upgrade (⟨1, 37⟩ : Lock Nat) = (none, ⟨1, 37⟩) ∧
        read_data (try_upgrade (⟨1, 37⟩ : Lock Nat)).2 = 37) ∧
    (0 < (⟨⟨2, 37⟩, 2, 0⟩ : SysState Nat).rGuards →
      (⟨⟨2, 37⟩, 2, 0⟩ : SysState Nat).lock.readers ≠ 1 →
      step (⟨⟨2, 37⟩, 2, 0⟩ : SysState Nat) Op.tryUpgrade = ⟨⟨2, 37⟩, 2, 0⟩) :=
  C4_try_upgrade_iff_single_reader ⟨1, 37⟩ ⟨⟨2, 37⟩, 2, 0⟩

/-- Claim C5: `downgrade` always succeeds: it stores exactly `1` into the
counter (never running the release-to-`0` drop of the write guard, which is
forgotten), consumes the write guard for a read guard, and the value last
written through the write guard is what the resulting read guard observes. -/
theorem C5_downgrade_always_succeeds (l : Lock T) (v : T) (s : SysState T) :
    downgrade l = { l with readers := 1 } ∧
    read_data (downgrade (write_data l v)) = v ∧
    (downgrade (write_data l v)).readers = 1 ∧
    (0 < s.wGuards →
      step s Op.downgrade = ⟨⟨1, s.lock.data⟩, s.rGuards + 1, s.wGuards - 1⟩) := by
  refine ⟨rfl, rfl, rfl, ?_⟩
  intro hg
  rw [step]
  have : ¬s.wGuards = 0 := by omega
  simp only [this, ite_false]
  rfl

/-- Witness for C5: write `99` through a held write guard, then downgrade. -/
theorem C5_downgrade_always_succeeds_witness :
    downgrade (⟨MAX, 37⟩ : Lock Nat) = ⟨1, 37⟩ ∧
    read_data (downgrade (write_data (⟨MAX, 37⟩ : Lock Nat) 99)) = 99 ∧
    (downgrade (write_data (⟨MAX, 37⟩ : Lock Nat) 99)).readers = 1 ∧
    (0 < (⟨⟨MAX, 99⟩, 0, 1⟩ : SysState Nat).wGuards →
      step (⟨⟨MAX, 99⟩, 0, 1⟩ : SysState Nat) Op.downgrade = ⟨⟨1, 99⟩, 1, 0⟩) :=
  C5_downgrade_always_succeeds ⟨MAX, 37⟩ 99 ⟨⟨MAX, 99⟩, 0, 1⟩

/-- Claim C8: for every value `v`, wrapping it with `new` and immediately
consuming the lock with `into_inner` returns `v` itself. -/
theorem C8_new_into_inner_roundtrip (v : T) : into_inner (new v) = v :=
  rfl

/-- Claim C10: whenever an acquisition attempt fails — `try_read` or
`try_write` returning `None`, or `try_upgrade` returning `Err` — the lock
(readers counter and wrapped data alike) is exactly as it was before the
attempt. -/
theorem C10_failed_attempt_no_effect (l : Lock T) :
    ((try_read l).1 = none → (try_read l).2 = l) ∧
    ((try_write l).1 = none → (try_write l).2 = l) ∧
    ((try_upgrade l).1 = none → (try_upgrade l).2 = l) := by
  refine ⟨?_, ?_, ?_⟩
  · by_cases hm : l.readers = MAX <;> simp [try_read, hm]
  · rw [try_write_eq]
    by_cases h0 : l.readers = 0 <;> simp [h0]
  · rw [try_upgrade_eq]
    by_cases h1 : l.readers = 1 <;> simp [h1]

/-- Witness for C10 at a lock held by a writer, where all three attempts
fail. -/
theorem C10_failed_attempt_no_effect_witness :
    (try_read (⟨MAX, 37⟩ : Lock Nat)).2 = ⟨MAX, 37⟩ ∧
    (try_write (⟨MAX, 37⟩ : Lock Nat)).2 = ⟨MAX, 37⟩ ∧
    (try_upgrade (⟨MAX, 37⟩ : Lock Nat)).2 = ⟨MAX, 37⟩ := by
  obtain ⟨h1, h2, h3⟩ := C10_failed_attempt_no_effect (⟨MAX, 37⟩ : Lock Nat)
  refine ⟨h1 ?_, h2 ?_, h3 ?_⟩
  · simp [try_read]
  · rw [try_write_eq]
    norm_num [MAX, USIZE]
  · rw [try_upgrade_eq]
    norm_num [MAX, USIZE]

/-- Counterexample to claim C1 as stated: the state with `usize::MAX`
outstanding read guards is reachable (by `usize::MAX` successful `try_read`
calls), and there the counter equals `usize::MAX` while read guards hold
access — the doc comment on the `readers` field acknowledges this overlap. -/
theorem C1_counterexample_saturated_readers :
    Reachable () ⟨⟨MAX, ()⟩, MAX, 0⟩ ∧
    (⟨⟨MAX, ()⟩, MAX, 0⟩ : SysState Unit).lock.readers = MAX ∧
    0 < (⟨⟨MAX, ()⟩, MAX, 0⟩ : SysState Unit).rGuards := by
  have hone := one_lt_MAX
  refine ⟨⟨List.replicate MAX Op.tryRead, ?_⟩, rfl, ?_⟩
  · have h := run_replicate_tryRead () 0 MAX (by omega)
    simpa [init, new] using h
  · show 0 < MAX
    omega

/-- Claim C1 (amended): in every reachable state, the counter equals
`usize::MAX` while read guards hold access only in the saturated case of
exactly `usize::MAX` outstanding readers; the counter is never strictly
between `0` and `usize::MAX` while a write guard holds access; `try_write`
fails whenever any guard is outstanding; and `try_read` fails whenever a
write guard is outstanding. -/
theorem C1_reachable_lock_invariant (v : T) (s : SysState T) (h : Reachable v s) :
    (s.lock.readers = MAX → 0 < s.rGuards → s.rGuards = MAX) ∧
    (0 < s.wGuards → ¬(1 ≤ s.lock.readers ∧ s.lock.readers < MAX)) ∧
    (0 < s.rGuards + s.wGuards → (try_write s.lock).1 = none) ∧
    (0 < s.wGuards → (try_read s.lock).1 = none) := by
  have hone := one_lt_MAX
  have hmax := MAX_lt_USIZE
  rcases h.inv with ⟨h1, h2, h3⟩ | ⟨h1, h2, h3⟩
  · refine ⟨fun hm _ => by omega, fun hw => absurd hw (by omega), ?_, ?_⟩
    · intro hg
      rw [try_write_eq]
      have hne : s.lock.readers ≠ 0 := by omega
      simp [hne]
    · intro hw
      exact absurd hw (by omega)
  · refine ⟨fun _ hr => absurd hr (by omega), fun _ => by omega, ?_, ?_⟩
    · intro _
      rw [try_write_eq]
      have hne : s.lock.readers ≠ 0 := by omega
      simp [hne]
    · intro _
      rw [try_read_eq s.lock (by omega)]
      simp [h3]

/-- Witness for C1 at the reachable state with one outstanding read guard. -/
theorem C1_reachable_lock_invariant_witness :
    ((⟨⟨1, 37⟩, 1, 0⟩ : SysState Nat).lock.readers = MAX →
      0 < (⟨⟨1, 37⟩, 1, 0⟩ : SysState Nat).rGuards →
      (⟨⟨1, 37⟩, 1, 0⟩ : SysState Nat).rGuards = MAX) ∧
    (0 < (⟨⟨1, 37⟩, 1, 0⟩ : SysState Nat).wGuards →
      ¬(1 ≤ (⟨⟨1, 37⟩, 1, 0⟩ : SysState Nat).lock.readers ∧
        (⟨⟨1, 37⟩, 1, 0⟩ : SysState Nat).lock.readers < MAX)) ∧
    (0 < (⟨⟨1, 37⟩, 1, 0⟩ : SysState Nat).rGuards + (⟨⟨1, 37⟩, 1, 0⟩ : SysState Nat).wGuards →
      (try_write (⟨⟨1, 37⟩, 1, 0⟩ : SysState Nat).lock).1 = none) ∧
    (0 < (⟨⟨1, 37⟩, 1, 0⟩ : SysState Nat).wGuards →
      (try_read (⟨⟨1, 37⟩, 1, 0⟩ : SysState Nat).lock).1 = none) :=
  C1_reachable_lock_invariant 37 ⟨⟨1, 37⟩, 1, 0⟩
    ⟨[Op.tryRead], by
      have hone := one_lt_MAX
      have h := run_replicate_tryRead (37 : Nat) 0 1 (by omega)
      simpa [init, new] using h⟩

/-- Claim C6: in any reachable state, dropping a read guard decrements the
counter by exactly one and dropping a write guard stores `0`, in both cases
leaving the wrapped data untouched; a guard consumed by a successful
`try_upgrade` or by `downgrade` does not run that drop action — the counter
is left at the sentinel, respectively at `1`. -/
theorem C6_guard_release (v : T) (s : SysState T) (h : Reachable v s) :
    (0 < s.rGuards →
      1 ≤ s.lock.readers ∧
      step s Op.dropRead =
        ⟨⟨s.lock.readers - 1, s.lock.data⟩, s.rGuards - 1, s.wGuards⟩) ∧
    (0 < s.wGuards →
      step s Op.dropWrite = ⟨⟨0, s.lock.data⟩, s.rGuards, s.wGuards - 1⟩) ∧
    (0 < s.rGuards → s.lock.readers = 1 →
      (step s Op.tryUpgrade).lock.readers = MAX) ∧
    (0 < s.wGuards → (step s Op.downgrade).lock.readers = 1) := by
  have hone := one_lt_MAX
  have hmax := MAX_lt_USIZE
  have hle := Inv_readers_le h.inv
  refine ⟨?_, ?_, ?_, ?_⟩
  · intro hg
    have hr : 1 ≤ s.lock.readers := by
      rcases h.inv with ⟨h1, h2, h3⟩ | ⟨h1, h2, h3⟩ <;> omega
    refine ⟨hr, ?_⟩
    rw [step]
    have hne : ¬s.rGuards = 0 := by omega
    simp only [hne, ite_false]
    rw [drop_read_eq s.lock hr (by omega)]
  · intro hg
    rw [step]
    have hne : ¬s.wGuards = 0 := by omega
    simp only [hne, ite_false]
    rfl
  · intro hg h1
    rw [step]
    have hne : ¬s.rGuards = 0 := by omega
    simp only [hne, ite_false, try_upgrade_eq, h1, ite_true]
  · intro hg
    rw [step]
    have hne : ¬s.wGuards = 0 := by omega
    simp only [hne, ite_false]
    rfl

/-- Witness for C6 at the reachable state with one outstanding read guard. -/
theorem C6_guard_release_witness :
    (0 < (⟨⟨1, 37⟩, 1, 0⟩ : SysState Nat).rGuards →
      1 ≤ (⟨⟨1, 37⟩, 1, 0⟩ : SysState Nat).lock.readers ∧
      step (⟨⟨1, 37⟩, 1, 0⟩ : SysState Nat) Op.dropRead = ⟨⟨0, 37⟩, 0, 0⟩) ∧
    (0 < (⟨⟨1, 37⟩, 1, 0⟩ : SysState Nat).wGuards →
      step (⟨⟨1, 37⟩, 1, 0⟩ : SysState Nat) Op.dropWrite = ⟨⟨0, 37⟩, 1, 0⟩) ∧
    (0 < (⟨⟨1, 37⟩, 1, 0⟩ : SysState Nat).rGuards →
      (⟨⟨1, 37⟩, 1, 0⟩ : SysState Nat).lock.readers = 1 →
      (step (⟨⟨1, 37⟩, 1, 0⟩ : SysState Nat) Op.tryUpgrade).lock.readers = MAX) ∧
    (0 < (⟨⟨1, 37⟩, 1, 0⟩ : SysState Nat).wGuards →
      (step (⟨⟨1, 37⟩, 1, 0⟩ : SysState Nat) Op.downgrade).lock.readers = 1) :=
  C6_guard_release 37 ⟨⟨1, 37⟩, 1, 0⟩
    ⟨[Op.tryRead], by
      have hone := one_lt_MAX
      have h := run_replicate_tryRead (37 : Nat) 0 1 (by omega)
      simpa [init, new] using h⟩

/-- Counterexample to claim C7 as stated: from the reachable state with
`usize::MAX - 1` outstanding readers, a further `try_read` is not rejected —
it succeeds and increments the counter into the writer sentinel
`usize::MAX`. -/
theorem C7_counterexample_saturating_read :
    Reachable () ⟨⟨MAX - 1, ()⟩, MAX - 1, 0⟩ ∧
    (try_read ((⟨⟨MAX - 1, ()⟩, MAX - 1, 0⟩ : SysState Unit).lock)).1 = some () ∧
    (try_read ((⟨⟨MAX - 1, ()⟩, MAX - 1, 0⟩ : SysState Unit).lock)).2.readers = MAX := by
  have hone := one_lt_MAX
  have hmax := MAX_lt_USIZE
  have h2 : try_read (⟨MAX - 1, ()⟩ : Lock Unit) = (some (), ⟨MAX, ()⟩) := by
    rw [try_read_eq _ (show MAX - 1 < USIZE by omega)]
    have hne : MAX - 1 ≠ MAX := by omega
    have hadd : MAX - 1 + 1 = MAX := by omega
    simp [hne, hadd]
  refine ⟨⟨List.replicate (MAX - 1) Op.tryRead, ?_⟩, ?_, ?_⟩
  · have h := run_replicate_tryRead () 0 (MAX - 1) (by omega)
    simpa [init, new] using h
  · rw [show (⟨⟨MAX - 1, ()⟩, MAX - 1, 0⟩ : SysState Unit).lock = ⟨MAX - 1, ()⟩ from rfl, h2]
  · rw [show (⟨⟨MAX - 1, ()⟩, MAX - 1, 0⟩ : SysState Unit).lock = ⟨MAX - 1, ()⟩ from rfl, h2]

/-- Claim C7 (amended): with the counter at exactly `usize::MAX - 1`, a
further `try_read` request is accepted and increments the counter into the
writer sentinel `usize::MAX`; only a request observing exactly `usize::MAX`
is rejected. -/
theorem C7_read_from_max_minus_one (l : Lock T) (h : l.readers = MAX - 1) :
    try_read l = (some (), { l with readers := MAX }) ∧
    (try_read l).1 ≠ none := by
  have hone := one_lt_MAX
  have hmax := MAX_lt_USIZE
  have heq : try_read l = (some (), { l with readers := MAX }) := by
    rw [try_read_eq l (by omega)]
    have hne : l.readers ≠ MAX := by omega
    have hadd : l.readers + 1 = MAX := by omega
    simp [hne, hadd]
  exact ⟨heq, by simp [heq]⟩

/-- Witness for C7 (amended) at the lock with `usize::MAX - 1` readers. -/
theorem C7_read_from_max_minus_one_witness :
    try_read (⟨MAX - 1, 37⟩ : Lock Nat) = (some (), ⟨MAX, 37⟩) ∧
    (try_read (⟨MAX - 1, 37⟩ : Lock Nat)).1 ≠ none :=
  C7_read_from_max_minus_one ⟨MAX - 1, 37⟩ rfl

/-- Claim C9: Debug-formatting a lock renders its wrapped value exactly when
a read acquisition currently succeeds (counter not `usize::MAX`) and the
`<locked>` placeholder otherwise; Debug- or Display-formatting either guard
renders the wrapped value directly. -/
theorem C9_formatting (rp : T → String) (l : Lock T) (h : l.readers < USIZE) :
    (l.readers ≠ MAX →
      (try_read l).1.isSome ∧
      lock_debug_fmt rp l = "TryRwLock \x7b data: " ++ rp l.data ++ " \x7d") ∧
    (l.readers = MAX →
      (try_read l).1 = none ∧
      lock_debug_fmt rp l = "TryRwLock \x7b data: <locked> \x7d") ∧
    read_guard_debug_fmt rp l = "TryRwLockReadGuard \x7b data: " ++ rp l.data ++ " \x7d" ∧
    write_guard_debug_fmt rp l = "TryRwLockWriteGuard \x7b data: " ++ rp l.data ++ " \x7d" ∧
    guard_display_fmt rp l = rp l.data := by
  refine ⟨?_, ?_, rfl, rfl, rfl⟩
  · intro hm
    constructor
    · rw [try_read_eq l h]
      simp [hm]
    · simp only [lock_debug_fmt, try_read_eq l h, hm, ite_false, read_data]
  · intro hm
    constructor
    · rw [try_read_eq l h]
      simp [hm]
    · simp only [lock_debug_fmt, try_read_eq l h, hm, ite_true]

/-- Witness for C9 at a free lock wrapping `37`, rendered with `toString`. -/
theorem C9_formatting_witness :
    ((0 : Nat) ≠ MAX →
      (try_read (⟨0, 37⟩ : Lock Nat)).1.isSome ∧
      lock_debug_fmt toString (⟨0, 37⟩ : Lock Nat) = "TryRwLock \x7b data: " ++ toString (37 : Nat) ++ " \x7d") ∧
    ((0 : Nat) = MAX →
      (try_read (⟨0, 37⟩ : Lock Nat)).1 = none ∧
      lock_debug_fmt toString (⟨0, 37⟩ : Lock Nat) = "TryRwLock \x7b data: <locked> \x7d") ∧
    read_guard_debug_fmt toString (⟨0, 37⟩ : Lock Nat) =
      "TryRwLockReadGuard \x7b data: " ++ toString (37 : Nat) ++ " \x7d" ∧
    write_guard_debug_fmt toString (⟨0, 37⟩ : Lock Nat) =
      "TryRwLockWriteGuard \x7b data: " ++ toString (37 : Nat) ++ " \x7d" ∧
    guard_display_fmt toString (⟨0, 37⟩ : Lock Nat) = toString (37 : Nat) :=
  C9_formatting toString ⟨0, 37⟩ (by norm_num [USIZE])

end TryRwLockModel
